import Mathlib

set_option maxHeartbeats 1600000

/-!
Verification of the `ask` command-line front-end (`src/ask_claude.py`).

The program is embedded shallowly: the child process, the clock, the
environment variable, the config file and the tty status are inputs; the
printed output, the exit status and the argument vector handed to the
external tool are the observable results.
-/

namespace AskClaude

/-- JSON values, as produced by the Python `json` module (`json.loads`).
Python `None`/JSON `null` is `Json.null`; numbers are modelled as rationals
(Python distinguishes `int` and `float`, a distinction none of the verified
behaviour depends on); objects are association lists in file order. -/
inductive Json where
  | null : Json
  | bool : Bool → Json
  | num : ℚ → Json
  | str : String → Json
  | arr : List Json → Json
  | obj : List (String × Json) → Json

/-- Python `v.get(k, dflt)`. Returns `none` when the receiver is not a
dict — in Python that raises `AttributeError` (the source only catches
`json.JSONDecodeError`, so such an error escapes to the outer handler).
Missing key yields the default; duplicate keys follow `json.loads`, which
keeps the last occurrence. -/
def pyGet (v : Json) (k : String) (dflt : Json) : Option Json :=
  match v with
  | .obj kvs => some ((((kvs.reverse).find? (fun p => p.1 == k)).map Prod.snd).getD dflt)
  | _ => none

/-- Python `v == s` for a JSON value `v` and a string literal `s`:
true exactly when `v` is that string. -/
def jsonEqStr (v : Json) (s : String) : Bool :=
  match v with
  | .str t => t == s
  | _ => false

/-- The text payload of a `text_delta` event. In the source `text` is drawn
from a JSON string field (default `''`); a non-string payload would be
printed via Python `str()`, a path no recognized event produces and no
claim exercises — it is rendered as the empty string here. -/
def textOf (v : Json) : String :=
  match v with
  | .str s => s
  | _ => ""

/-- Whitespace for Python `str.strip()`. Python also strips a few rarer
control and unicode space characters; the config files and child output the
claims exercise contain only these. -/
def pySpace (c : Char) : Bool := c.isWhitespace

/-- Python `s.strip()`: drop leading and trailing whitespace. -/
def pyStrip (s : String) : String :=
  String.mk (((s.data.dropWhile pySpace).reverse.dropWhile pySpace).reverse)

/-- Character-list core of `str.startswith`. -/
def charsStartWith : List Char → List Char → Bool
  | _, [] => true
  | [], _ :: _ => false
  | c :: cs, d :: ds => c == d && charsStartWith cs ds

/-- Python `s.startswith(t)`. -/
def pyStartsWith (s t : String) : Bool := charsStartWith s.data t.data

/-- Everything after the first `=` of a character list. -/
def afterFirstEqChars : List Char → List Char
  | [] => []
  | '=' :: rest => rest
  | _ :: rest => afterFirstEqChars rest

/-- Python `s.lower()` (ASCII letters; the recognized config values are
ASCII). -/
def pyLower (s : String) : String := String.mk (s.data.map Char.toLower)

/-- Python truthiness (`bool(v)`) of a JSON value. -/
def jsonTruthy (v : Json) : Bool :=
  match v with
  | .null => false
  | .bool b => b
  | .num q => if q.num = 0 then false else true
  | .str s => if s = "" then false else true
  | .arr [] => false
  | .arr (_ :: _) => true
  | .obj [] => false
  | .obj (_ :: _) => true

/-- Numeric value of a JSON value, for the `f"{total_cost:.4f}"` format.
Booleans format as ints in Python; a non-numeric truthy cost would raise in
the source (caught by its generic handler) — no recognized event stream
produces one and no claim exercises that path. -/
def jsonNum (v : Json) : ℚ :=
  match v with
  | .num q => q
  | .bool b => if b then 1 else 0
  | _ => 0

/-- Mutable state of the streaming loop in `run_query`: the running cost
(`total_cost`, a Python value initialised to the int `0`), the list of text
fragments (`response_lines`) and the text printed to stdout so far. -/
structure StreamState where
  total_cost : Json
  response_lines : List String
  printed : String

/-- State before the first line: `total_cost = 0`, `response_lines = []`. -/
def initStreamState : StreamState :=
  { total_cost := Json.num 0, response_lines := [], printed := "" }

/-- One iteration of the streaming loop (source lines 169-188). The input is
`none` when `json.loads` failed on the line (`JSONDecodeError` → `continue`).
`Except.error ()` models an `AttributeError` from calling `.get` on a
non-dict value, which the loop does not catch. -/
def processLine (st : StreamState) (line : Option Json) : Except Unit StreamState :=
  match line with
  | none => Except.ok st
  | some data =>
    match pyGet data "type" Json.null with
    | none => Except.error ()
    | some ty =>
      if jsonEqStr ty "stream_event" then
        match pyGet data "event" (Json.obj []) with
        | none => Except.error ()
        | some event =>
          match pyGet event "type" Json.null with
          | none => Except.error ()
          | some ety =>
            if jsonEqStr ety "content_block_delta" then
              match pyGet event "delta" (Json.obj []) with
              | none => Except.error ()
              | some delta =>
                match pyGet delta "type" Json.null with
                | none => Except.error ()
                | some dty =>
                  if jsonEqStr dty "text_delta" then
                    match pyGet delta "text" (Json.str "") with
                    | none => Except.error ()
                    | some text =>
                      Except.ok { st with
                        printed := st.printed ++ textOf text,
                        response_lines := st.response_lines ++ [textOf text] }
                  else Except.ok st
            else Except.ok st
      else if jsonEqStr ty "result" then
        match pyGet data "total_cost_usd" (Json.num 0) with
        | none => Except.error ()
        | some c => Except.ok { st with total_cost := c }
      else Except.ok st

/-- The whole streaming loop: fold `processLine` over the lines; stop at the
first uncaught error. Returns the state and whether the loop aborted
(printing up to the failing line has already happened when it does). -/
def streamFold (st : StreamState) : List (Option Json) → StreamState × Bool
  | [] => (st, false)
  | l :: ls =>
    match processLine st l with
    | Except.ok st' => streamFold st' ls
    | Except.error _ => (st, true)

/-- Left-pad a digit string with zeros to width `w`. -/
def padZeros (w : Nat) (s : String) : String :=
  String.mk (List.replicate (w - s.length) '0') ++ s

/-- Fixed-point decimal formatting, Python `f"{q:.{dec}f}"`. Python formats
a binary float with ties to even; the tie-breaking direction is immaterial
to every claim, and rounding is modelled as floor of the half-shifted
value. -/
def fmtFixed (dec : Nat) (q : ℚ) : String :=
  let n : Int := Int.fdiv (2 * q.num * (10 ^ dec : Int) + (q.den : Int)) (2 * (q.den : Int))
  let sign := if n < 0 then "-" else ""
  let m : Nat := n.natAbs
  let p : Nat := 10 ^ dec
  sign ++ toString (m / p) ++ "." ++ padZeros dec (toString (m % p))

/-- Python `str.capitalize()`: first character upper-cased, rest lower. -/
def pyCapitalize (s : String) : String :=
  match s.data with
  | [] => ""
  | c :: cs => String.mk (c.toUpper :: cs.map Char.toLower)

/-- The streaming-mode cost suffix (source line 196):
`f" - ${total_cost:.4f}" if total_cost else ""`. -/
def costStr (c : Json) : String :=
  if jsonTruthy c then " - $" ++ fmtFixed 4 (jsonNum c) else ""

/-- The built-in system prompt (source lines 16-58), verbatim. -/
def DEFAULT_SYSTEM_PROMPT : String :=
  "You are a command-line assistant responding directly in the terminal.\n\nYour output will be displayed raw in the terminal or potentially piped to other commands.\n\nRESPONSE RULES:\n- Output ONLY the direct answer\n- Commands: bare executable syntax (no $ prefix, no markdown)\n- Questions: minimal factual answer\n- Numbers: just the value\n- Paths/names: just the text\n- Everything must be copy-pasteable (no quotes around answers)\n- User will directly paste your output into terminal or other commands\n\nAVAILABLE TOOLS (automatically available):\n- Bash: Execute commands to get real answers (counts, searches, checks)\n- Read: Read file contents to answer questions about code\n- Grep: Search for patterns across files\n- Glob: Find files by pattern\n- WebSearch: Search the web for current information\n- WebFetch: Fetch and analyze web page content\n\nTOOL USAGE:\n- Use tools when asked \"how many\", \"find\", \"search\", \"check\", \"list\"\n- Use web tools for current events, news, documentation lookups\n- Verify facts instead of guessing\n- Count/measure rather than estimate\n\nSAFETY RULES - CRITICAL:\n- NEVER execute destructive commands (rm -rf, dd, mkfs, format, etc.)\n- NEVER modify system files (/etc, /sys, /boot, etc.)\n- NEVER execute commands with sudo/su\n- If asked for destructive commands, OUTPUT the command but DO NOT execute\n- For destructive commands, prefix response with: \"⚠️ DESTRUCTIVE: \"\n- User must manually review and execute dangerous commands themselves\n\nNEVER OUTPUT:\n- Markdown code blocks (```)\n- Explanations or reasoning\n- Multiple alternatives\n- Headers or formatting\n- \"Here is\" or \"The answer is\" phrases\n\nRemember: User can pipe your output directly to bash or other commands."

/-- The comma-joined tool allow-list passed when web access is enabled
(source line 137). -/
def webToolsList : String := "Bash,Read,Grep,Glob,WebSearch,WebFetch"

/-- The three recognized model identifiers. -/
def validModels : List String := ["haiku", "sonnet", "opus"]

/-- Python `line.split('=', 1)[1]`: everything after the first `=`
(empty when the line has no `=`; the callers only reach this after a
`startswith` check guaranteeing one). -/
def afterFirstEq (line : String) : String :=
  String.mk (afterFirstEqChars line.data)

/-- The config-file line scan shared by `get_max_turns` and
`is_web_enabled`: the first line whose stripped form starts with `key=`
yields the stripped text after the first `=`. -/
def scanConfig (key : String) : List String → Option String
  | [] => none
  | l :: ls =>
    if pyStartsWith (pyStrip l) (key ++ "=") then some (pyStrip (afterFirstEq l))
    else scanConfig key ls

/-- The `default_model=` scan of `get_default_model` (source lines 72-77):
unlike the other two scans it keeps scanning past entries whose value is
not one of the three recognized identifiers. -/
def findConfigModel : List String → Option String
  | [] => none
  | l :: ls =>
    if pyStartsWith (pyStrip l) "default_model=" then
      let m := pyLower (pyStrip (afterFirstEq l))
      if validModels.contains m then some m else findConfigModel ls
    else findConfigModel ls

/-- `get_default_model` (source lines 61-82). `env` is
`os.environ.get('ASK_DEFAULT_MODEL')` (`none` when unset); `config` is the
config file as a list of lines, `none` when the file is missing or any read
error occurred (the source swallows all exceptions from the read). -/
def get_default_model (env : Option String) (config : Option (List String)) : String :=
  let d := pyLower (env.getD "")
  if validModels.contains d then d
  else
    match config with
    | some lines => (findConfigModel lines).getD "sonnet"
    | none => "sonnet"

/-- Digits of a Python `int()` literal after the first digit: ASCII digits
with single underscores allowed between digits (Python accepts
`1_0`; `1__0`, `1_` are errors). -/
def pyDigitsCore (acc : Nat) : List Char → Option Nat
  | [] => some acc
  | '_' :: c :: cs =>
    if c.isDigit then pyDigitsCore (acc * 10 + (c.toNat - 48)) cs else none
  | ['_'] => none
  | c :: cs =>
    if c.isDigit then pyDigitsCore (acc * 10 + (c.toNat - 48)) cs else none

/-- Digit-sequence entry point: must start with a digit. -/
def pyDigitsStart : List Char → Option Nat
  | [] => none
  | c :: cs => if c.isDigit then pyDigitsCore (c.toNat - 48) cs else none

/-- Python `int(s)`: surrounding whitespace stripped, optional sign, ASCII
digit sequence (underscore separators allowed); `none` models the
`ValueError` raised otherwise. Python also accepts non-ASCII decimal
digits, which no claim exercises. -/
def pyInt? (s : String) : Option Int :=
  match (pyStrip s).data with
  | [] => none
  | '+' :: rest => (pyDigitsStart rest).map Int.ofNat
  | '-' :: rest => (pyDigitsStart rest).map (fun n => -(n : Int))
  | rest => (pyDigitsStart rest).map Int.ofNat

/-- `get_max_turns` (source lines 85-97): the first `max_turns=` line is
parsed with `int()`; a parse failure raises inside the `try`, is swallowed,
and the function returns `None` — it does not continue scanning. -/
def get_max_turns (config : Option (List String)) : Option Int :=
  match config with
  | none => none
  | some lines =>
    match scanConfig "max_turns" lines with
    | none => none
    | some v => pyInt? v

/-- `is_web_enabled` (source lines 100-112): the first `enable_web=` line
decides; its value, stripped and lower-cased, must equal `true`. -/
def is_web_enabled (config : Option (List String)) : Bool :=
  match config with
  | none => false
  | some lines =>
    match scanConfig "enable_web" lines with
    | some v => pyLower v == "true"
    | none => false

/-- The argument vector built by `run_query` (source lines 124-152).
`if model:` and `if system_prompt:` are Python truthiness tests, so an
empty string behaves like an absent value. -/
def buildCmd (prompt model : String) (system_prompt : Option String)
    (max_turns : Option Int) (webEnabled use_streaming : Bool) : List String :=
  ["claude", "-p"]
  ++ (if model = "" then [] else ["--model", model])
  ++ (match max_turns with
      | some n => ["--max-turns", toString n]
      | none => [])
  ++ (if webEnabled then ["--allowed-tools", webToolsList] else [])
  ++ (if use_streaming then
        ["--output-format", "stream-json", "--include-partial-messages", "--verbose"]
      else [])
  ++ ["--system-prompt",
      match system_prompt with
      | some sp => if sp = "" then DEFAULT_SYSTEM_PROMPT else sp
      | none => DEFAULT_SYSTEM_PROMPT]
  ++ [prompt]

/-- Outcome of `subprocess.run(cmd, capture_output=True, timeout=30)` in
buffered mode: either `TimeoutExpired` after the fixed budget, or
completion with an exit code and captured output. -/
inductive BufferedOutcome where
  | timeout
  | completed (returncode : Int) (stdout stderr : String)

/-- Behaviour of the external `claude` binary for one run: whether the
binary exists (`FileNotFoundError` otherwise), the stdout lines it emits in
streaming mode (each already passed through `json.loads`, `none` for a line
that fails to parse), and its buffered-mode outcome. -/
structure ChildBehavior where
  found : Bool
  streamLines : List (Option Json)
  buffered : BufferedOutcome

/-- Observable result of one run: text printed to stdout, text printed to
stderr, `sys.exit` status (`none` = normal return), whether the streaming
branch of `run_query` executed, and the argument vector handed to the OS
(`none` when the program exited before invoking the tool). -/
structure RunResult where
  stdoutText : String
  stderrText : String
  exitCode : Option Nat
  usedStreaming : Bool
  invoked : Option (List String)

/-- The fixed buffered-mode budget, `timeout=30` (source line 205). -/
def bufferedTimeoutSeconds : Nat := 30

/-- Source line 224 diagnostic. -/
def toolNotFoundMsg : String :=
  "Error: Claude CLI not found. Install with: npm install -g @anthropic-ai/claude-code"

/-- Source line 221 diagnostic. -/
def timeoutMsg : String :=
  "Error: Claude CLI timed out after " ++ toString bufferedTimeoutSeconds ++ " seconds"

/-- The `Error: {e}` line printed by the generic handler (source line 227)
when an `AttributeError` escapes the streaming loop; the exact wording
depends on the Python runtime type name and is fixed abstractly here. -/
def attrErrorLine : String :=
  "Error: AttributeError calling .get on a non-dict JSON value"

/-- Source line 245 diagnostic. -/
def noPromptMsg : String :=
  "Error: No prompt provided. Pipe input or provide as argument."

/-- The streaming branch of `run_query` (source lines 155-197): fold the
loop over the lines; on normal completion print a final newline when any
fragment was printed, then the metadata line (with the cost, four decimal
places, when nonzero); an escaped `AttributeError` reaches the generic
handler, which prints the diagnostic and exits 1 (text already printed
stays printed). -/
def streamingRun (model : String) (lines : List (Option Json)) (elapsed : ℚ)
    (cmd : List String) : RunResult :=
  match streamFold initStreamState lines with
  | (st, true) =>
    { stdoutText := st.printed, stderrText := attrErrorLine ++ "\n",
      exitCode := some 1, usedStreaming := true, invoked := some cmd }
  | (st, false) =>
    { stdoutText := st.printed ++ (if st.response_lines = [] then "" else "\n"),
      stderrText := "\n[Claude " ++ pyCapitalize model ++ " - " ++ fmtFixed 2 elapsed
        ++ "s" ++ costStr st.total_cost ++ "]" ++ "\n",
      exitCode := none, usedStreaming := true, invoked := some cmd }

/-- `run_query` (source lines 115-228). `elapsed` is the wall-clock span
`time.time() - start_time` read when the metadata line is printed. -/
def run_query (prompt model : String) (system_prompt : Option String)
    (max_turns : Option Int) (config : Option (List String))
    (stdout_isatty : Bool) (child : ChildBehavior) (elapsed : ℚ) : RunResult :=
  let use_streaming := stdout_isatty
  let cmd := buildCmd prompt model system_prompt max_turns (is_web_enabled config) use_streaming
  if child.found = false then
    { stdoutText := "", stderrText := toolNotFoundMsg ++ "\n",
      exitCode := some 1, usedStreaming := use_streaming, invoked := some cmd }
  else if use_streaming then
    streamingRun model child.streamLines elapsed cmd
  else
    match child.buffered with
    | BufferedOutcome.timeout =>
      { stdoutText := "", stderrText := timeoutMsg ++ "\n",
        exitCode := some 1, usedStreaming := false, invoked := some cmd }
    | BufferedOutcome.completed rc out err =>
      if rc ≠ 0 then
        { stdoutText := "", stderrText := "Error: Claude CLI failed: " ++ err ++ "\n",
          exitCode := some 1, usedStreaming := false, invoked := some cmd }
      else
        { stdoutText := pyStrip out ++ "\n",
          stderrText := "\n[Claude " ++ pyCapitalize model ++ " - " ++ fmtFixed 2 elapsed ++ "s]" ++ "\n",
          exitCode := none, usedStreaming := false, invoked := some cmd }

/-- Prompt resolution in `main` (source lines 240-247). `if args.prompt:`
is a truthiness test, so an empty positional argument falls through to
stdin; `none` models the `NoPromptProvided` exit. -/
def main_prompt (argPrompt : Option String) (stdin_isatty : Bool)
    (stdinText : String) : Option String :=
  match argPrompt with
  | some p => if p = "" then (if stdin_isatty then none else some (pyStrip stdinText)) else some p
  | none => if stdin_isatty then none else some (pyStrip stdinText)

/-- `model = args.model or get_default_model()` (source line 250), with
Python `or` truthiness. -/
def resolveModelArg (modelArg env : Option String) (config : Option (List String)) : String :=
  match modelArg with
  | some m => if m = "" then get_default_model env config else m
  | none => get_default_model env config

/-- `main` (source lines 231-261): resolve the prompt (exiting 1 without
invoking the tool when there is none), resolve model and max-turns, then
run the query. -/
def ask_main (argPrompt modelArg systemArg : Option String)
    (stdin_isatty : Bool) (stdinText : String)
    (env : Option String) (config : Option (List String))
    (stdout_isatty : Bool) (child : ChildBehavior) (elapsed : ℚ) : RunResult :=
  match main_prompt argPrompt stdin_isatty stdinText with
  | none =>
    { stdoutText := "", stderrText := noPromptMsg ++ "\n",
      exitCode := some 1, usedStreaming := false, invoked := none }
  | some prompt =>
    run_query prompt (resolveModelArg modelArg env config) systemArg
      (get_max_turns config) config stdout_isatty child elapsed

/-- A `stream_event`/`content_block_delta`/`text_delta` line carrying the
fragment `t`, as parsed by `json.loads`. -/
def textDeltaLine (t : String) : Option Json :=
  some (Json.obj [("type", Json.str "stream_event"),
    ("event", Json.obj [("type", Json.str "content_block_delta"),
      ("delta", Json.obj [("type", Json.str "text_delta"), ("text", Json.str t)])])])

/-- A `result` line carrying a total cost, as parsed by `json.loads`. -/
def resultLine (c : ℚ) : Option Json :=
  some (Json.obj [("type", Json.str "result"), ("total_cost_usd", Json.num c)])

/-- The outer `type` tag test of the streaming loop, as the source performs
it: `data.get('type') == s` for a dict `data` (false on a missing tag). -/
def typeIs (d : Json) (s : String) : Bool :=
  match pyGet d "type" Json.null with
  | some v => jsonEqStr v s
  | none => false

/-- The rational 0.0021 (21/10000, already in lowest terms), the event cost
used in the worked examples. -/
def cost0021 : ℚ := ⟨21, 10000, by decide, by decide⟩

/-- `cost0021` is the rational written `21 / 10000`. -/
theorem cost0021_eq : cost0021 = 21 / 10000 := by
  rw [cost0021, Rat.mk'_eq_divInt, Rat.divInt_eq_div]
  norm_num

/-- The last element of a list ending in a singleton. -/
theorem getLast?_append_single (xs : List String) (a : String) :
    (xs ++ [a]).getLast? = some a := by
  induction xs with
  | nil => rfl
  | cons x xs ih =>
    rw [List.cons_append]
    cases h : xs ++ [a] with
    | nil => exact absurd h (by simp)
    | cons y ys => rw [List.getLast?_cons_cons, ← h, ih]

/-- The prompt is always the final argument of the built command. -/
theorem buildCmd_getLast (prompt model : String) (sp : Option String)
    (mt : Option Int) (w tty : Bool) :
    (buildCmd prompt model sp mt w tty).getLast? = some prompt := by
  unfold buildCmd
  exact getLast?_append_single _ _

/-- Every model identifier `findConfigModel` returns is recognized. -/
theorem findConfigModel_valid (lines : List String) (m : String)
    (h : findConfigModel lines = some m) : validModels.contains m = true := by
  induction lines with
  | nil => exact absurd h (by simp [findConfigModel])
  | cons l ls ih =>
    simp only [findConfigModel] at h
    split at h
    · split at h
      · rename_i hv
        cases h
        exact hv
      · exact ih h
    · exact ih h

/-- Dropping an unparsable line from the stream leaves the loop state
unchanged. -/
theorem streamFold_skip_none (pre : List (Option Json)) (st : StreamState)
    (post : List (Option Json)) :
    streamFold st (pre ++ none :: post) = streamFold st (pre ++ post) := by
  induction pre generalizing st with
  | nil => rfl
  | cons l ls ih =>
    rw [List.cons_append, List.cons_append]
    cases h : processLine st l with
    | ok st' => simp only [streamFold, h]; exact ih st'
    | error e => simp only [streamFold, h]

/-- A parsed object line matching neither recognized tag leaves the loop
state unchanged and raises nothing. -/
theorem processLine_obj_other (st : StreamState) (kvs : List (String × Json))
    (h1 : typeIs (Json.obj kvs) "stream_event" = false)
    (h2 : typeIs (Json.obj kvs) "result" = false) :
    processLine st (some (Json.obj kvs)) = Except.ok st := by
  simp only [typeIs, pyGet] at h1 h2
  simp [processLine, pyGet, h1, h2]

/-- The streaming branch always records the command it was invoked with. -/
theorem streamingRun_invoked (model : String) (lines : List (Option Json))
    (elapsed : ℚ) (cmd : List String) :
    (streamingRun model lines elapsed cmd).invoked = some cmd := by
  unfold streamingRun
  cases h : streamFold initStreamState lines with
  | mk st b => cases b <;> rfl

/-- The streaming branch always reports itself as streaming. -/
theorem streamingRun_usedStreaming (model : String) (lines : List (Option Json))
    (elapsed : ℚ) (cmd : List String) :
    (streamingRun model lines elapsed cmd).usedStreaming = true := by
  unfold streamingRun
  cases h : streamFold initStreamState lines with
  | mk st b => cases b <;> rfl

/-- `run_query` always hands the built command to the OS. -/
theorem run_query_invoked (prompt model : String) (sp : Option String)
    (mt : Option Int) (config : Option (List String)) (tty : Bool)
    (child : ChildBehavior) (elapsed : ℚ) :
    (run_query prompt model sp mt config tty child elapsed).invoked
      = some (buildCmd prompt model sp mt (is_web_enabled config) tty) := by
  obtain ⟨found, ls, bo⟩ := child
  cases found with
  | false => cases tty <;> rfl
  | true =>
    cases tty with
    | true => exact streamingRun_invoked model ls elapsed _
    | false =>
      cases bo with
      | timeout => rfl
      | completed rc out err =>
        by_cases hrc : rc = 0
        · subst hrc; rfl
        · simp [run_query, hrc]

/-- Claim C1 (amended): in streaming mode, the two `text_delta` events and
the `result` event accumulate and print exactly `foobar` (with the final
terminating newline) and record cost 0.0021, which the metadata line shows
to four decimal places; a parsed object line whose type tag is neither
`stream_event` nor `result` is ignored without error. (Lines parsing to a
non-object, or `stream_event` wrappers whose `event`/`delta` fields are
non-objects, instead abort the run — see the counterexample.) -/
theorem c1_streaming_accumulation :
    ((streamFold initStreamState
        [textDeltaLine "foo", textDeltaLine "bar", resultLine (21/10000)]).1.printed = "foobar"
      ∧ (streamFold initStreamState
          [textDeltaLine "foo", textDeltaLine "bar", resultLine (21/10000)]).1.total_cost
          = Json.num (21/10000)
      ∧ (run_query "q" "haiku" none none none true
          ⟨true, [textDeltaLine "foo", textDeltaLine "bar", resultLine (21/10000)],
            BufferedOutcome.completed 0 "" ""⟩ 1).stdoutText = "foobar\n"
      ∧ (run_query "q" "haiku" none none none true
          ⟨true, [textDeltaLine "foo", textDeltaLine "bar", resultLine (21/10000)],
            BufferedOutcome.completed 0 "" ""⟩ 1).stderrText
          = "\n[Claude Haiku - 1.00s - $0.0021]\n")
    ∧ ∀ (st : StreamState) (kvs : List (String × Json)),
        typeIs (Json.obj kvs) "stream_event" = false →
        typeIs (Json.obj kvs) "result" = false →
        processLine st (some (Json.obj kvs)) = Except.ok st := by
  rw [show (21 / 10000 : ℚ) = cost0021 from cost0021_eq.symm]
  exact ⟨⟨rfl, rfl, rfl, by decide⟩, processLine_obj_other⟩

/-- Witness for C1: a concrete `system`-tagged object event is ignored. -/
theorem c1_witness :
    processLine initStreamState (some (Json.obj [("type", Json.str "system")]))
      = Except.ok initStreamState :=
  c1_streaming_accumulation.2 initStreamState [("type", Json.str "system")] rfl rfl

/-- Counterexample for C1 as stated: a `stream_event` whose `event` field is
the number 5 — an event of "another shape" — is not ignored: the run aborts
with exit status 1 (Python raises `AttributeError` calling `.get` on a
non-dict, which the streaming loop does not catch), unlike the same run
without that line. -/
theorem c1_counterexample :
    (run_query "q" "haiku" none none none true
      ⟨true, [textDeltaLine "foo",
        some (Json.obj [("type", Json.str "stream_event"), ("event", Json.num 5)])],
        BufferedOutcome.completed 0 "" ""⟩ 1).exitCode = some 1
    ∧ (run_query "q" "haiku" none none none true
        ⟨true, [textDeltaLine "foo"], BufferedOutcome.completed 0 "" ""⟩ 1).exitCode = none :=
  ⟨rfl, rfl⟩

/-- Claim C2: the streaming branch executes exactly when stdout is a tty;
the choice is independent of every other input (prompt, model, system
prompt, turn cap, config file, child behaviour, clock). -/
theorem c2_protocol_choice (prompt model : String) (sp : Option String)
    (mt : Option Int) (config : Option (List String)) (tty : Bool)
    (child : ChildBehavior) (elapsed : ℚ) :
    (run_query prompt model sp mt config tty child elapsed).usedStreaming = tty := by
  obtain ⟨found, ls, bo⟩ := child
  cases found with
  | false => cases tty <;> rfl
  | true =>
    cases tty with
    | true => exact streamingRun_usedStreaming model ls elapsed _
    | false =>
      cases bo with
      | timeout => rfl
      | completed rc out err =>
        by_cases hrc : rc = 0
        · subst hrc; rfl
        · simp [run_query, hrc]

/-- Claim C3: a line that fails to parse as JSON is skipped silently — the
loop state, and hence the whole streaming-mode run result (answer, cost,
exit status), is exactly as if the line were absent. -/
theorem c3_malformed_line_skipped (prompt model : String) (sp : Option String)
    (mt : Option Int) (config : Option (List String)) (pre post : List (Option Json))
    (bo : BufferedOutcome) (elapsed : ℚ) (st : StreamState) :
    streamFold st (pre ++ none :: post) = streamFold st (pre ++ post)
    ∧ run_query prompt model sp mt config true ⟨true, pre ++ none :: post, bo⟩ elapsed
      = run_query prompt model sp mt config true ⟨true, pre ++ post, bo⟩ elapsed := by
  refine ⟨streamFold_skip_none pre st post, ?_⟩
  show streamingRun model (pre ++ none :: post) elapsed _
    = streamingRun model (pre ++ post) elapsed _
  unfold streamingRun
  rw [streamFold_skip_none]

/-- Claim C4 (amended): in buffered mode with exit status 0 the printed
answer is the child's stdout with surrounding whitespace trimmed, printed
as one block, and the stderr metadata line holds the capitalized model name
and the elapsed seconds to two decimal places — and nothing else: no cost
is ever suffixed in buffered mode, whatever the child wrote to stderr (the
right-hand side below does not depend on `err`). -/
theorem c4_buffered_success (prompt model : String) (sp : Option String)
    (mt : Option Int) (config : Option (List String)) (lines : List (Option Json))
    (out err : String) (elapsed : ℚ) :
    run_query prompt model sp mt config false ⟨true, lines, BufferedOutcome.completed 0 out err⟩ elapsed
      = { stdoutText := pyStrip out ++ "\n",
          stderrText := "\n[Claude " ++ pyCapitalize model ++ " - " ++ fmtFixed 2 elapsed ++ "s]" ++ "\n",
          exitCode := none, usedStreaming := false,
          invoked := some (buildCmd prompt model sp mt (is_web_enabled config) false) } := rfl

/-- Counterexample for C4 as stated: the child writes a dollar amount to
stderr, yet the metadata line carries no cost (it contains no `$` at all);
the trimmed answer `42` is printed. -/
theorem c4_counterexample :
    (run_query "q" "haiku" none none none false
      ⟨true, [], BufferedOutcome.completed 0 "  42  \n" "total: $0.0123"⟩ 1).stderrText
      = "\n[Claude Haiku - 1.00s]\n"
    ∧ '$' ∉ "\n[Claude Haiku - 1.00s]\n".data
    ∧ (run_query "q" "haiku" none none none false
        ⟨true, [], BufferedOutcome.completed 0 "  42  \n" "total: $0.0123"⟩ 1).stdoutText = "42\n" :=
  ⟨by decide, by decide, by decide⟩

/-- Claim C5: in buffered mode a nonzero child exit status yields exit
status 1, a stderr diagnostic embedding the child's captured stderr text,
and no answer on stdout. -/
theorem c5_buffered_failure (prompt model : String) (sp : Option String)
    (mt : Option Int) (config : Option (List String)) (lines : List (Option Json))
    (rc : Int) (out err : String) (elapsed : ℚ) (h : rc ≠ 0) :
    run_query prompt model sp mt config false ⟨true, lines, BufferedOutcome.completed rc out err⟩ elapsed
      = { stdoutText := "", stderrText := "Error: Claude CLI failed: " ++ err ++ "\n",
          exitCode := some 1, usedStreaming := false,
          invoked := some (buildCmd prompt model sp mt (is_web_enabled config) false) } := by
  simp [run_query, h]

/-- Witness for C5: exit status 2 with diagnostic `permission denied`. -/
theorem c5_witness :
    run_query "q" "haiku" none none none false
      ⟨true, [], BufferedOutcome.completed 2 "" "permission denied"⟩ 1
      = { stdoutText := "", stderrText := "Error: Claude CLI failed: permission denied\n",
          exitCode := some 1, usedStreaming := false,
          invoked := some (buildCmd "q" "haiku" none none false false) } :=
  c5_buffered_failure "q" "haiku" none none none [] 2 "" "permission denied" 1 (by decide)

/-- Claim C6: the timeout budget is the fixed 30 seconds and expiry (in
buffered mode) exits 1 with the timeout diagnostic; in streaming mode the
result is independent of the buffered-mode outcome (no clock is consulted —
termination is driven by the end of the child's output) and the timeout
diagnostic can never be produced. -/
theorem c6_timeout_only_buffered (prompt model : String) (sp : Option String)
    (mt : Option Int) (config : Option (List String)) (lines : List (Option Json))
    (bo bo' : BufferedOutcome) (child : ChildBehavior) (elapsed : ℚ) :
    bufferedTimeoutSeconds = 30
    ∧ run_query prompt model sp mt config false ⟨true, lines, BufferedOutcome.timeout⟩ elapsed
        = { stdoutText := "", stderrText := timeoutMsg ++ "\n", exitCode := some 1,
            usedStreaming := false,
            invoked := some (buildCmd prompt model sp mt (is_web_enabled config) false) }
    ∧ run_query prompt model sp mt config true ⟨true, lines, bo⟩ elapsed
        = run_query prompt model sp mt config true ⟨true, lines, bo'⟩ elapsed
    ∧ (run_query prompt model sp mt config true child elapsed).stderrText ≠ timeoutMsg ++ "\n" := by
  refine ⟨rfl, rfl, rfl, ?_⟩
  obtain ⟨found, ls, cb⟩ := child
  cases found with
  | false =>
    show toolNotFoundMsg ++ "\n" ≠ timeoutMsg ++ "\n"
    decide
  | true =>
    show (streamingRun model ls elapsed _).stderrText ≠ timeoutMsg ++ "\n"
    unfold streamingRun
    cases h : streamFold initStreamState ls with
    | mk st aborted =>
      cases aborted with
      | true =>
        show attrErrorLine ++ "\n" ≠ timeoutMsg ++ "\n"
        decide
      | false =>
        show ("\n[Claude " ++ pyCapitalize model ++ " - " ++ fmtFixed 2 elapsed
            ++ "s" ++ costStr st.total_cost ++ "]" ++ "\n") ≠ timeoutMsg ++ "\n"
        intro heq
        have h2 : some '\n' = some 'E' := by
          calc some '\n'
              = ("\n[Claude " ++ pyCapitalize model ++ " - " ++ fmtFixed 2 elapsed
                  ++ "s" ++ costStr st.total_cost ++ "]" ++ "\n").data.head? := rfl
            _ = (timeoutMsg ++ "\n").data.head? := by rw [heq]
            _ = some 'E' := rfl
        exact absurd h2 (by decide)

/-- Witness for C6: concrete buffered-mode timeout. -/
theorem c6_witness :
    run_query "q" "haiku" none none none false ⟨true, [], BufferedOutcome.timeout⟩ 1
      = { stdoutText := "", stderrText := timeoutMsg ++ "\n", exitCode := some 1,
          usedStreaming := false, invoked := some (buildCmd "q" "haiku" none none false false) } :=
  (c6_timeout_only_buffered "q" "haiku" none none none [] BufferedOutcome.timeout
    BufferedOutcome.timeout ⟨true, [], BufferedOutcome.timeout⟩ 1).2.1

/-- Claim C7: model resolution always lands in the three-identifier set; a
valid (case-insensitively, via lower-casing) environment value wins
outright; an absent or invalid environment value defers to the config scan,
whose first valid `default_model=` entry decides, with built-in default
`sonnet` when the scan fails or the file is unreadable; and the config scan
itself only ever returns recognized identifiers. -/
theorem c7_model_resolution (env : Option String) (config : Option (List String)) :
    validModels.contains (get_default_model env config) = true
    ∧ (validModels.contains (pyLower (env.getD "")) = true →
        get_default_model env config = pyLower (env.getD ""))
    ∧ (validModels.contains (pyLower (env.getD "")) = false →
        (∀ lines, config = some lines →
          get_default_model env config = (findConfigModel lines).getD "sonnet")
        ∧ (config = none → get_default_model env config = "sonnet"))
    ∧ (∀ lines m, findConfigModel lines = some m → validModels.contains m = true) := by
  refine ⟨?_, ?_, ?_, fun lines m h => findConfigModel_valid lines m h⟩
  · simp only [get_default_model]
    split
    · assumption
    · cases config with
      | none => decide
      | some lines =>
        show validModels.contains ((findConfigModel lines).getD "sonnet") = true
        cases hf : findConfigModel lines with
        | none => decide
        | some m => exact findConfigModel_valid lines m hf
  · intro h
    simp only [get_default_model]
    rw [if_pos h]
  · intro h
    have h' : ¬ (validModels.contains (pyLower (env.getD "")) = true) := by rw [h]; decide
    constructor
    · intro lines hc
      subst hc
      simp only [get_default_model]
      rw [if_neg h']
    · intro hc
      subst hc
      simp only [get_default_model]
      rw [if_neg h']

/-- Witness for C7: a valid environment value overrides a conflicting
config entry, case-insensitively. -/
theorem c7_witness :
    get_default_model (some "HAIKU") (some ["default_model=opus"]) = "haiku" :=
  (c7_model_resolution (some "HAIKU") (some ["default_model=opus"])).2.1 (by decide)

/-- Claim C8 (amended): max-turns resolution returns no limit when the file
is unreadable, no `max_turns=` entry exists, or the first entry's value
fails integer parsing; when a limit is returned it is exactly the integer
parsed from the first entry — which need not be positive (zero or negative
values are returned as-is). -/
theorem c8_max_turns (lines : List String) :
    get_max_turns none = none
    ∧ (scanConfig "max_turns" lines = none → get_max_turns (some lines) = none)
    ∧ (∀ v, scanConfig "max_turns" lines = some v → pyInt? v = none →
        get_max_turns (some lines) = none)
    ∧ (∀ n, get_max_turns (some lines) = some n →
        ∃ v, scanConfig "max_turns" lines = some v ∧ pyInt? v = some n) := by
  refine ⟨rfl, ?_, ?_, ?_⟩
  · intro h
    simp [get_max_turns, h]
  · intro v h hp
    simp [get_max_turns, h, hp]
  · intro n h
    simp only [get_max_turns] at h
    cases hs : scanConfig "max_turns" lines with
    | none => rw [hs] at h; exact absurd h (by simp)
    | some v => rw [hs] at h; exact ⟨v, rfl, h⟩

/-- Witness for C8: a non-numeric value resolves to no limit. -/
theorem c8_witness : get_max_turns (some ["max_turns=abc"]) = none :=
  (c8_max_turns ["max_turns=abc"]).2.2.1 "abc" rfl rfl

/-- Counterexample for C8 as stated: `max_turns=0` returns the limit 0,
which is not a positive integer (the source applies `int()` with no
positivity check). -/
theorem c8_counterexample :
    get_max_turns (some ["max_turns=0"]) = some 0 ∧ ¬ (0 : Int) > 0 :=
  ⟨rfl, by decide⟩

/-- Claim C9: web tooling resolution — an unreadable file or missing
`enable_web=` entry disables; a present entry enables exactly when its
value lower-cases to `true`; when enabled the built command carries the
`--allowed-tools` flag followed by exactly the six-capability list; when
disabled the flag appears nowhere in the command (given that none of the
caller-controlled strings is itself the flag token). -/
theorem c9_web_allowlist (prompt model : String) (sp : Option String)
    (mt : Option Int) (config : Option (List String)) (tty : Bool) :
    is_web_enabled none = false
    ∧ (∀ lines, scanConfig "enable_web" lines = none → is_web_enabled (some lines) = false)
    ∧ (∀ lines v, scanConfig "enable_web" lines = some v →
        (is_web_enabled (some lines) = true ↔ pyLower v = "true"))
    ∧ (is_web_enabled config = true →
        ∃ pre suf, buildCmd prompt model sp mt (is_web_enabled config) tty
          = pre ++ ["--allowed-tools", webToolsList] ++ suf)
    ∧ (is_web_enabled config = false →
        prompt ≠ "--allowed-tools" → model ≠ "--allowed-tools" →
        sp ≠ some "--allowed-tools" →
        (∀ n : Int, mt = some n → toString n ≠ "--allowed-tools") →
        "--allowed-tools" ∉ buildCmd prompt model sp mt (is_web_enabled config) tty) := by
  refine ⟨rfl, ?_, ?_, ?_, ?_⟩
  · intro lines h
    simp [is_web_enabled, h]
  · intro lines v h
    simp [is_web_enabled, h]
  · intro h
    rw [h]
    refine ⟨["claude", "-p"]
        ++ (if model = "" then [] else ["--model", model])
        ++ (match mt with | some n => ["--max-turns", toString n] | none => []),
      (if tty then ["--output-format", "stream-json", "--include-partial-messages", "--verbose"] else [])
        ++ ["--system-prompt",
            match sp with
            | some s => if s = "" then DEFAULT_SYSTEM_PROMPT else s
            | none => DEFAULT_SYSTEM_PROMPT]
        ++ [prompt], ?_⟩
    simp [buildCmd, List.append_assoc]
  · intro h hp hm hsp hmt hmem
    rw [h] at hmem
    have f1 : ¬ ("--allowed-tools" = model) := fun e => hm e.symm
    have f2 : ¬ ("--allowed-tools" = prompt) := fun e => hp e.symm
    unfold buildCmd at hmem
    rcases mt with _ | n
    · rcases sp with _ | s
      · dsimp only at hmem
        split_ifs at hmem <;> simp_all [DEFAULT_SYSTEM_PROMPT]
      · have f4 : ¬ ("--allowed-tools" = s) := fun e => hsp (by rw [← e])
        dsimp only at hmem
        split_ifs at hmem <;> simp_all [DEFAULT_SYSTEM_PROMPT]
    · have f3 : ¬ ("--allowed-tools" = toString n) := fun e => hmt n rfl e.symm
      rcases sp with _ | s
      · dsimp only at hmem
        split_ifs at hmem <;> simp_all [DEFAULT_SYSTEM_PROMPT]
      · have f4 : ¬ ("--allowed-tools" = s) := fun e => hsp (by rw [← e])
        dsimp only at hmem
        split_ifs at hmem <;> simp_all [DEFAULT_SYSTEM_PROMPT]

/-- Witness for C9: `enable_web=TRUE` enables, and the built command then
contains the allow-list segment. -/
theorem c9_witness :
    is_web_enabled (some ["enable_web=TRUE"]) = true
    ∧ ∃ pre suf, buildCmd "q" "haiku" none none (is_web_enabled (some ["enable_web=TRUE"])) false
        = pre ++ ["--allowed-tools", webToolsList] ++ suf := by
  have h := c9_web_allowlist "q" "haiku" none none (some ["enable_web=TRUE"]) false
  have he : is_web_enabled (some ["enable_web=TRUE"]) = true :=
    (h.2.2.1 ["enable_web=TRUE"] "TRUE" rfl).mpr (by decide)
  exact ⟨he, h.2.2.2.1 he⟩

/-- Claim C10 (amended): with no (or an empty) prompt argument and an
interactive stdin, the run exits 1 without invoking the tool; a non-empty
positional argument is passed verbatim as the final command argument (hence
non-empty); with stdin piped, the stripped stdin text is passed — which may
be empty (see the counterexample). -/
theorem c10_prompt_resolution (argPrompt modelArg systemArg : Option String)
    (stdinText : String) (env : Option String) (config : Option (List String))
    (tty : Bool) (child : ChildBehavior) (elapsed : ℚ) :
    (argPrompt.getD "" = "" →
      ask_main argPrompt modelArg systemArg true stdinText env config tty child elapsed
        = { stdoutText := "", stderrText := noPromptMsg ++ "\n", exitCode := some 1,
            usedStreaming := false, invoked := none })
    ∧ (∀ p, argPrompt = some p → p ≠ "" →
        ((ask_main argPrompt modelArg systemArg true stdinText env config tty child elapsed).invoked.getD
          []).getLast? = some p
        ∧ ((ask_main argPrompt modelArg systemArg false stdinText env config tty child elapsed).invoked.getD
          []).getLast? = some p)
    ∧ (argPrompt.getD "" = "" →
        ((ask_main argPrompt modelArg systemArg false stdinText env config tty child elapsed).invoked.getD
          []).getLast? = some (pyStrip stdinText)) := by
  refine ⟨?_, ?_, ?_⟩
  · intro h
    cases argPrompt with
    | none => rfl
    | some p =>
      simp only [Option.getD] at h
      subst h
      rfl
  · intro p hp hne
    subst hp
    have hmp : ∀ b : Bool, main_prompt (some p) b stdinText = some p := by
      intro b
      simp [main_prompt, hne]
    constructor <;>
      · unfold ask_main
        rw [hmp]
        show ((run_query p (resolveModelArg modelArg env config) systemArg
            (get_max_turns config) config tty child elapsed).invoked.getD []).getLast? = some p
        rw [run_query_invoked]
        exact buildCmd_getLast p (resolveModelArg modelArg env config) systemArg
          (get_max_turns config) (is_web_enabled config) tty
  · intro h
    have hm : main_prompt argPrompt false stdinText = some (pyStrip stdinText) := by
      cases argPrompt with
      | none => rfl
      | some p =>
        simp only [Option.getD] at h
        subst h
        rfl
    unfold ask_main
    rw [hm]
    show ((run_query (pyStrip stdinText) (resolveModelArg modelArg env config) systemArg
        (get_max_turns config) config tty child elapsed).invoked.getD
      []).getLast? = some (pyStrip stdinText)
    rw [run_query_invoked]
    exact buildCmd_getLast (pyStrip stdinText) (resolveModelArg modelArg env config) systemArg
      (get_max_turns config) (is_web_enabled config) tty

/-- Witness for C10: a non-empty positional prompt is passed as the final
command argument. -/
theorem c10_witness :
    ((ask_main (some "hi") none none false "" none none false
      ⟨true, [], BufferedOutcome.completed 0 "" ""⟩ 0).invoked.getD []).getLast? = some "hi" :=
  ((c10_prompt_resolution (some "hi") none none "" none none false
    ⟨true, [], BufferedOutcome.completed 0 "" ""⟩ 0).2.1 "hi" rfl (by decide)).2

/-- Counterexample for C10 as stated: with no prompt argument and an empty
piped stdin, the tool is invoked anyway, and the prompt argument of the
invocation (the final element of the command) is the empty string. -/
theorem c10_counterexample :
    ((ask_main none none none false "" none none false
      ⟨true, [], BufferedOutcome.completed 0 "" ""⟩ 0).invoked.getD []).getLast? = some ""
    ∧ ((ask_main none none none false "" none none false
      ⟨true, [], BufferedOutcome.completed 0 "" ""⟩ 0).invoked).isSome = true := by
  constructor
  · rw [show ask_main none none none false "" none none false
        ⟨true, [], BufferedOutcome.completed 0 "" ""⟩ 0
        = run_query "" (resolveModelArg none none none) none (get_max_turns none) none false
            ⟨true, [], BufferedOutcome.completed 0 "" ""⟩ 0 from rfl]
    rw [run_query_invoked]
    exact buildCmd_getLast "" (resolveModelArg none none none) none
      (get_max_turns none) (is_web_enabled none) false
  · rfl

end AskClaude
